import Mathlib

/-!
# Pawnshop back-office: loan lifecycle, authorization and ledger guards

A shallow embedding of the core business logic of the pawnshop management
backend: the loan lifecycle engine (`calculate_loan_details`, `add_payment`,
`extend_loan`, `redeem_loan`, `default_loan`, `update_loan` from
`app/routers/loans.py`), the role/permission check
(`has_permission` over `ROLE_PERMISSIONS` from `app/auth/permissions.py`),
the application update rule (`update_application` from
`app/routers/applications.py`) and the customer/item deletion guards
(`delete_customer` from `app/routers/customers.py`, `delete_item` from
`app/routers/inventory.py`).

Modelling conventions:
* Monetary amounts (SQL `Numeric` / Python floats) are rationals `ℚ`;
  the arithmetic in the source is the exact formula, reproduced verbatim.
* Calendar dates and timestamps are integers (a day / instant number);
  Python `(a - b).days` becomes integer subtraction.
* Each endpoint body runs inside one database transaction; raising an
  HTTP error aborts the transaction with no writes.  An operation is thus
  a function returning `Except ApiError σ`: the `.ok` payload is the
  post-transaction state, and `.error` means the state is untouched.
  All guards in the modelled handlers run before any write
  (validate-then-write), matching the source order.
* The session is created with `autoflush=False`, so a payment `add`ed to
  the session is invisible to the aggregate sum query issued by
  `calculate_loan_details` later in the same handler; the model therefore
  computes the running total over the *prior* payment list.
-/

namespace Pawnshop

/-- `LoanStatusEnum` from `app/schemas/loans.py`. -/
inductive LoanStatus
  | pending
  | active
  | overdue
  | completed
  | defaulted
  | extended
  | cancelled
deriving DecidableEq, Repr

/-- The `.value` string of a `LoanStatusEnum` member. -/
def LoanStatus.toValue : LoanStatus → String
  | .pending => "pending"
  | .active => "active"
  | .overdue => "overdue"
  | .completed => "completed"
  | .defaulted => "defaulted"
  | .extended => "extended"
  | .cancelled => "cancelled"

/-- `ItemStatus` from `app/models/operations.py`. -/
inductive ItemStatus
  | pawned
  | redeemed
  | defaulted
  | for_sale
  | sold
  | damaged
  | lost
deriving DecidableEq, Repr

/-- `ApplicationStatus` from `app/models/operations.py`. -/
inductive ApplicationStatus
  | pending
  | approved
  | rejected
  | cancelled
deriving DecidableEq, Repr

/-- The error taxonomy of the API layer.  `HTTPException(404, …)` on a
missing entity is `notFound`; `HTTPException(400, …)` on an illegal
lifecycle state is `invalidState`; a violated business rule is
`validationError`; a delete blocked by dependent records is
`conflictError`; `401` is `authenticationError`; `403` is
`authorizationError`. -/
inductive ApiError
  | notFound (detail : String)
  | invalidState (detail : String)
  | validationError (detail : String)
  | conflictError (detail : String)
  | authenticationError (detail : String)
  | authorizationError (detail : String)
deriving DecidableEq, Repr

/-- A row of the `payments` table (`Payment` in `app/models/operations.py`),
restricted to the columns the handlers read or write. -/
structure Payment where
  loan_id : Nat
  amount : ℚ
  payment_date : Int
  payment_method : String
  reference_number : Option String
  notes : Option String
  created_at : Int
  updated_at : Int
deriving DecidableEq, Repr

/-- `PaymentCreate` from `app/schemas/loans.py`: the request body for a
new payment. -/
structure PaymentCreate where
  amount : ℚ
  payment_date : Int
  payment_method : String
  reference_number : Option String
  notes : Option String
deriving DecidableEq, Repr

/-- A row of the `loans` table, restricted to the columns the handlers
read or write (the router addresses the principal column as
`loan_amount`, following `app/schemas/loans.py`). -/
structure Loan where
  id : Nat
  customer_id : Nat
  item_id : Nat
  loan_amount : ℚ
  interest_rate : ℚ
  term_days : Int
  start_date : Int
  due_date : Int
  status : LoanStatus
  extension_count : Nat
  collateral_description : Option String
  notes : Option String
  updated_at : Int
deriving DecidableEq, Repr

/-- A row of the `items` table, restricted to the columns the handlers
read or write. -/
structure Item where
  id : Nat
  item_code : String
  name : String
  status : ItemStatus
  appraised_value : ℚ
deriving DecidableEq, Repr

/-- The slice of the database a single-loan handler touches: the loan row
fetched by id, the payment rows, and the linked item row
(`item.id = loan.item_id`). -/
structure LoanState where
  loan : Loan
  payments : List Payment
  item : Item
deriving DecidableEq, Repr

/-- The dictionary returned by `calculate_loan_details`. -/
structure LoanDetails where
  total_paid : ℚ
  remaining_balance : ℚ
  is_overdue : Bool
  days_remaining : Int
  days_overdue : Int
deriving DecidableEq, Repr

/-- `calculate_loan_details` from `app/routers/loans.py` (lines 43–66).
`total_paid` is the SQL `sum` of the amounts of the payments whose
`loan_id` matches (the `or 0` of the source turns the empty-sum `NULL`
into `0`, which the list sum gives directly); `today` is `date.today()`. -/
def calculate_loan_details (loan : Loan) (payments : List Payment) (today : Int) :
    LoanDetails :=
  let total_paid : ℚ :=
    ((payments.filter fun p => p.loan_id == loan.id).map Payment.amount).sum
  let interest_amount : ℚ := loan.loan_amount * (loan.interest_rate / 100)
  let remaining_balance : ℚ := loan.loan_amount + interest_amount - total_paid
  let days_remaining : Int := if loan.due_date > today then loan.due_date - today else 0
  let days_overdue : Int := if today > loan.due_date then today - loan.due_date else 0
  let is_overdue : Bool := days_overdue > 0
  { total_paid := total_paid
    remaining_balance := remaining_balance
    is_overdue := is_overdue
    days_remaining := days_remaining
    days_overdue := days_overdue }

/-- C2: `calculate_loan_details` is a pure function of the loan, its
payments and today's date, defined for a loan in any status: its
`total_paid` is the sum of the loan's payment amounts (`0` when there are
none), its `remaining_balance` is
`principal + principal * interest_rate / 100 − total_paid` with no
flooring, `is_overdue` holds exactly when `today > due_date`,
`days_overdue = max 0 (today − due_date)` and
`days_remaining = max 0 (due_date − today)`. -/
theorem calculate_loan_details_spec (loan : Loan) (payments : List Payment)
    (today : Int) :
    (calculate_loan_details loan payments today).total_paid =
        ((payments.filter fun p => p.loan_id == loan.id).map Payment.amount).sum ∧
    (calculate_loan_details loan payments today).remaining_balance =
        loan.loan_amount + loan.loan_amount * loan.interest_rate / 100 -
          (calculate_loan_details loan payments today).total_paid ∧
    ((calculate_loan_details loan payments today).is_overdue = true ↔
        today > loan.due_date) ∧
    (calculate_loan_details loan payments today).days_overdue =
        max 0 (today - loan.due_date) ∧
    (calculate_loan_details loan payments today).days_remaining =
        max 0 (loan.due_date - today) := by
  refine ⟨rfl, ?_, ?_, ?_, ?_⟩
  · simp only [calculate_loan_details]
    ring
  · simp only [calculate_loan_details, decide_eq_true_eq, gt_iff_lt]
    split <;> omega
  · simp only [calculate_loan_details, gt_iff_lt]
    split <;> omega
  · simp only [calculate_loan_details, gt_iff_lt]
    split <;> omega

/-- Build the `Payment` row inserted by a handler from its
`PaymentCreate` body: `loan_id` is the path parameter (the fetched loan's
id), `created_at`/`updated_at` are `datetime.utcnow()`. -/
def Payment.fromCreate (loan_id : Nat) (p : PaymentCreate) (now : Int) : Payment :=
  { loan_id := loan_id
    amount := p.amount
    payment_date := p.payment_date
    payment_method := p.payment_method
    reference_number := p.reference_number
    notes := p.notes
    created_at := now
    updated_at := now }

/-- `add_payment` from `app/routers/loans.py` (lines 301–360).  The
handler rejects statuses outside {pending, active, overdue, extended},
inserts the payment row, and — because the session has `autoflush=False`,
so the sum inside `calculate_loan_details` sees only the prior rows —
compares `total_paid + amount` against
`loan_amount + loan_amount * interest_rate / 100`; on reaching the
threshold it also sets the loan to `completed` and the linked item to
`redeemed` before the single `commit`. -/
def add_payment (st : LoanState) (payment_in : PaymentCreate) (today now : Int) :
    Except ApiError (LoanState × Payment) :=
  if st.loan.status = .pending ∨ st.loan.status = .active ∨
      st.loan.status = .overdue ∨ st.loan.status = .extended then
    let payment := Payment.fromCreate st.loan.id payment_in now
    let loan_details := calculate_loan_details st.loan st.payments today
    let total_paid_after_payment := loan_details.total_paid + payment_in.amount
    if total_paid_after_payment ≥
        st.loan.loan_amount + st.loan.loan_amount * st.loan.interest_rate / 100 then
      .ok ({ loan := { st.loan with status := .completed, updated_at := now }
             payments := st.payments ++ [payment]
             item := { st.item with status := .redeemed } }, payment)
    else
      .ok ({ st with payments := st.payments ++ [payment] }, payment)
  else
    .error (.invalidState ("Cannot add payment to loan with status: " ++ st.loan.status.toValue))

/-- `LoanExtend` from `app/schemas/loans.py`. -/
structure LoanExtend where
  additional_days : Int
  payment : Option PaymentCreate
  notes : Option String
deriving DecidableEq, Repr

/-- `extend_loan` from `app/routers/loans.py` (lines 363–422).  Only
`active`/`overdue` loans may be extended; the optional payment row is
inserted, then `due_date` and `term_days` grow by `additional_days`, the
status becomes `extended` and an optional timestamped note line is
appended.  (The source never touches `extension_count`.) -/
def extend_loan (st : LoanState) (extension_in : LoanExtend) (today now : Int) :
    Except ApiError LoanState :=
  if st.loan.status = .active ∨ st.loan.status = .overdue then
    let payments :=
      match extension_in.payment with
      | some p => st.payments ++ [Payment.fromCreate st.loan.id p now]
      | none => st.payments
    let notes :=
      match extension_in.notes with
      | some n => some ((st.loan.notes.getD "") ++ "\nExtended on " ++ toString today ++ ": " ++ n)
      | none => st.loan.notes
    .ok { st with
          payments := payments
          loan := { st.loan with
                    due_date := st.loan.due_date + extension_in.additional_days
                    term_days := st.loan.term_days + extension_in.additional_days
                    status := .extended
                    notes := notes
                    updated_at := now } }
  else
    .error (.invalidState ("Cannot extend loan with status: " ++ st.loan.status.toValue))

/-- `LoanRedeem` from `app/schemas/loans.py`. -/
structure LoanRedeem where
  payment : PaymentCreate
  notes : Option String
deriving DecidableEq, Repr

/-- `redeem_loan` from `app/routers/loans.py` (lines 425–499).  Only
`active`/`overdue`/`extended` loans may be redeemed; a payment below the
remaining balance computed by `calculate_loan_details` at call time is
rejected before any write; otherwise the payment row is inserted, the
loan becomes `completed` (with an optional note line) and the linked item
`redeemed`, in one transaction. -/
def redeem_loan (st : LoanState) (redemption_in : LoanRedeem) (today now : Int) :
    Except ApiError LoanState :=
  if st.loan.status = .active ∨ st.loan.status = .overdue ∨ st.loan.status = .extended then
    let remaining_balance := (calculate_loan_details st.loan st.payments today).remaining_balance
    if redemption_in.payment.amount < remaining_balance then
      .error (.validationError ("Redemption payment (" ++ toString redemption_in.payment.amount ++
        ") is less than the remaining balance (" ++ toString remaining_balance ++ ")"))
    else
      let notes :=
        match redemption_in.notes with
        | some n => some ((st.loan.notes.getD "") ++ "\nRedeemed on " ++ toString today ++ ": " ++ n)
        | none => st.loan.notes
      .ok { loan := { st.loan with status := .completed, notes := notes, updated_at := now }
            payments := st.payments ++ [Payment.fromCreate st.loan.id redemption_in.payment now]
            item := { st.item with status := .redeemed } }
  else
    .error (.invalidState ("Cannot redeem loan with status: " ++ st.loan.status.toValue))

/-- `LoanDefault` from `app/schemas/loans.py`. -/
structure LoanDefault where
  default_date : Int
  reason : Option String
  notes : Option String
deriving DecidableEq, Repr

/-- `default_loan` from `app/routers/loans.py` (lines 502–556).  Only
`active`/`overdue`/`extended` loans may be defaulted; the loan becomes
`defaulted` with an audit note combining date/reason/notes, and the
linked item becomes `defaulted`.  No payment is recorded. -/
def default_loan (st : LoanState) (default_in : LoanDefault) (now : Int) :
    Except ApiError LoanState :=
  if st.loan.status = .active ∨ st.loan.status = .overdue ∨ st.loan.status = .extended then
    let default_notes :=
      "Defaulted on " ++ toString default_in.default_date ++
      (match default_in.reason with
       | some r => ", Reason: " ++ r
       | none => "") ++
      (match default_in.notes with
       | some n => ", Notes: " ++ n
       | none => "")
    .ok { st with
          loan := { st.loan with
                    status := .defaulted
                    notes := some ((st.loan.notes.getD "") ++ "\n" ++ default_notes)
                    updated_at := now }
          item := { st.item with status := .defaulted } }
  else
    .error (.invalidState ("Cannot default loan with status: " ++ st.loan.status.toValue))

/-- `LoanUpdate` from `app/schemas/loans.py`; a field left `none` was not
sent (`exclude_unset=True`). -/
structure LoanUpdate where
  loan_amount : Option ℚ
  interest_rate : Option ℚ
  term_days : Option Int
  start_date : Option Int
  due_date : Option Int
  status : Option LoanStatus
  collateral_description : Option String
  notes : Option String
deriving DecidableEq, Repr

/-- `update_loan` from `app/routers/loans.py` (lines 255–298): the
generic loan update.  It rejects only `completed` and `defaulted` loans,
then copies every field present in the request body onto the row. -/
def update_loan (st : LoanState) (loan_in : LoanUpdate) (now : Int) :
    Except ApiError LoanState :=
  if st.loan.status = .completed ∨ st.loan.status = .defaulted then
    .error (.invalidState ("Cannot update loan with status: " ++ st.loan.status.toValue))
  else
    .ok { st with
          loan := { st.loan with
                    loan_amount := loan_in.loan_amount.getD st.loan.loan_amount
                    interest_rate := loan_in.interest_rate.getD st.loan.interest_rate
                    term_days := loan_in.term_days.getD st.loan.term_days
                    start_date := loan_in.start_date.getD st.loan.start_date
                    due_date := loan_in.due_date.getD st.loan.due_date
                    status := loan_in.status.getD st.loan.status
                    collateral_description :=
                      match loan_in.collateral_description with
                      | some s => some s
                      | none => st.loan.collateral_description
                    notes :=
                      match loan_in.notes with
                      | some s => some s
                      | none => st.loan.notes
                    updated_at := now } }

/-- C1: on a loan in {pending, active, overdue, extended}, `add_payment`
appends the payment row; when prior total paid plus this amount reaches
`principal + principal * interest_rate / 100` it also sets the loan to
`completed` and the linked item to `redeemed` in the same operation,
and below the threshold the loan's and item's statuses are untouched. -/
theorem add_payment_spec (st : LoanState) (payment_in : PaymentCreate) (today now : Int)
    (h : st.loan.status = .pending ∨ st.loan.status = .active ∨
        st.loan.status = .overdue ∨ st.loan.status = .extended) :
    ((calculate_loan_details st.loan st.payments today).total_paid + payment_in.amount ≥
        st.loan.loan_amount + st.loan.loan_amount * st.loan.interest_rate / 100 →
      add_payment st payment_in today now =
        .ok ({ loan := { st.loan with status := .completed, updated_at := now }
               payments := st.payments ++ [Payment.fromCreate st.loan.id payment_in now]
               item := { st.item with status := .redeemed } },
             Payment.fromCreate st.loan.id payment_in now)) ∧
    ((calculate_loan_details st.loan st.payments today).total_paid + payment_in.amount <
        st.loan.loan_amount + st.loan.loan_amount * st.loan.interest_rate / 100 →
      add_payment st payment_in today now =
        .ok ({ st with payments := st.payments ++ [Payment.fromCreate st.loan.id payment_in now] },
             Payment.fromCreate st.loan.id payment_in now)) := by
  constructor
  · intro hge
    rw [add_payment, if_pos h, if_pos hge]
  · intro hlt
    rw [add_payment, if_pos h, if_neg (not_le.mpr hlt)]

/-- Concrete scenario for C1: principal 1000 at 5 percent, a 1050 payment
on an active loan with no prior payments. -/
def c1Loan : Loan :=
  { id := 1, customer_id := 1, item_id := 1, loan_amount := 1000, interest_rate := 5
    term_days := 30, start_date := 0, due_date := 30, status := .active
    extension_count := 0, collateral_description := none, notes := none, updated_at := 0 }

def c1Item : Item :=
  { id := 1, item_code := "IT-0001", name := "gold ring", status := .pawned, appraised_value := 1500 }

def c1State : LoanState := { loan := c1Loan, payments := [], item := c1Item }

def c1PaymentIn : PaymentCreate :=
  { amount := 1050, payment_date := 10, payment_method := "cash"
    reference_number := none, notes := none }

/-- Witness for C1: the 1050 payment reaches the 1050 threshold, so the
loan completes and the item is redeemed. -/
theorem add_payment_spec_witness :
    add_payment c1State c1PaymentIn 10 11 =
      .ok ({ loan := { c1Loan with status := .completed, updated_at := 11 }
             payments := [Payment.fromCreate 1 c1PaymentIn 11]
             item := { c1Item with status := .redeemed } },
           Payment.fromCreate 1 c1PaymentIn 11) :=
  (add_payment_spec c1State c1PaymentIn 10 11 (Or.inr (Or.inl rfl))).1 (by norm_num [calculate_loan_details, c1State, c1Loan, c1PaymentIn])

/-- Concrete scenario for C3: an active loan that has never been
extended. -/
def c3Loan : Loan :=
  { id := 2, customer_id := 1, item_id := 2, loan_amount := 500, interest_rate := 10
    term_days := 30, start_date := 0, due_date := 30, status := .active
    extension_count := 0, collateral_description := none, notes := none, updated_at := 0 }

def c3Item : Item :=
  { id := 2, item_code := "IT-0002", name := "guitar", status := .pawned, appraised_value := 800 }

def c3State : LoanState := { loan := c3Loan, payments := [], item := c3Item }

def c3Extension : LoanExtend := { additional_days := 30, payment := none, notes := none }

/-- C3 counterexample: extending an active loan succeeds, but the
resulting `extension_count` equals the old one (0) — the handler never
increments it, contradicting the claimed `extension_count + 1`. -/
theorem extend_loan_count_counterexample :
    (extend_loan c3State c3Extension 100 101).map (fun s => s.loan.extension_count) =
      Except.ok c3State.loan.extension_count ∧
    c3State.loan.extension_count ≠ c3State.loan.extension_count + 1 :=
  ⟨rfl, by decide⟩

/-- C3 (amended): extending a loan in {active, overdue} succeeds,
advancing `due_date` and `term_days` by `additional_days` and setting the
status to `extended`, while `extension_count` is left unchanged; on any
other status `extend_loan` fails with an invalid-state error. -/
theorem extend_loan_spec (st : LoanState) (extension_in : LoanExtend) (today now : Int) :
    (st.loan.status = .active ∨ st.loan.status = .overdue →
      ∃ st', extend_loan st extension_in today now = .ok st' ∧
        st'.loan.due_date = st.loan.due_date + extension_in.additional_days ∧
        st'.loan.term_days = st.loan.term_days + extension_in.additional_days ∧
        st'.loan.status = .extended ∧
        st'.loan.extension_count = st.loan.extension_count) ∧
    (¬ (st.loan.status = .active ∨ st.loan.status = .overdue) →
      extend_loan st extension_in today now =
        .error (.invalidState ("Cannot extend loan with status: " ++ st.loan.status.toValue))) := by
  constructor
  · intro h
    rw [extend_loan, if_pos h]
    exact ⟨_, rfl, rfl, rfl, rfl, rfl⟩
  · intro h
    rw [extend_loan, if_neg h]

/-- Witness for C3 (amended): the concrete extension succeeds with the
due date pushed from day 30 to day 60 and `extension_count` still 0. -/
theorem extend_loan_spec_witness :
    ∃ st', extend_loan c3State c3Extension 100 101 = .ok st' ∧
      st'.loan.due_date = c3State.loan.due_date + c3Extension.additional_days ∧
      st'.loan.term_days = c3State.loan.term_days + c3Extension.additional_days ∧
      st'.loan.status = .extended ∧
      st'.loan.extension_count = c3State.loan.extension_count :=
  (extend_loan_spec c3State c3Extension 100 101).1 (Or.inl rfl)

/-- C4: every one of the four lifecycle operations rejects a loan in a
terminal status ({completed, defaulted, cancelled}) with an
invalid-state error; the transaction aborts before any write, so the
loan, its payments and the linked item are untouched. -/
theorem terminal_lifecycle_ops_fail (st : LoanState) (payment_in : PaymentCreate)
    (extension_in : LoanExtend) (redemption_in : LoanRedeem) (default_in : LoanDefault)
    (today now : Int)
    (h : st.loan.status = .completed ∨ st.loan.status = .defaulted ∨
        st.loan.status = .cancelled) :
    add_payment st payment_in today now =
      .error (.invalidState ("Cannot add payment to loan with status: " ++ st.loan.status.toValue)) ∧
    extend_loan st extension_in today now =
      .error (.invalidState ("Cannot extend loan with status: " ++ st.loan.status.toValue)) ∧
    redeem_loan st redemption_in today now =
      .error (.invalidState ("Cannot redeem loan with status: " ++ st.loan.status.toValue)) ∧
    default_loan st default_in now =
      .error (.invalidState ("Cannot default loan with status: " ++ st.loan.status.toValue)) := by
  obtain h | h | h := h <;>
    exact ⟨by rw [add_payment, if_neg (by simp [h])],
           by rw [extend_loan, if_neg (by simp [h])],
           by rw [redeem_loan, if_neg (by simp [h])],
           by rw [default_loan, if_neg (by simp [h])]⟩

/-- Concrete scenario for C4 and C5: a completed loan. -/
def c4Loan : Loan :=
  { id := 3, customer_id := 2, item_id := 3, loan_amount := 700, interest_rate := 5
    term_days := 30, start_date := 0, due_date := 30, status := .completed
    extension_count := 0, collateral_description := none, notes := none, updated_at := 0 }

def c4Item : Item :=
  { id := 3, item_code := "IT-0003", name := "watch", status := .redeemed, appraised_value := 900 }

def c4State : LoanState := { loan := c4Loan, payments := [], item := c4Item }

def c4PaymentIn : PaymentCreate :=
  { amount := 10, payment_date := 40, payment_method := "cash"
    reference_number := none, notes := none }

def c4Extension : LoanExtend := { additional_days := 10, payment := none, notes := none }

def c4Redemption : LoanRedeem := { payment := c4PaymentIn, notes := none }

def c4Default : LoanDefault := { default_date := 40, reason := none, notes := none }

/-- Witness for C4: all four lifecycle operations reject the completed
loan. -/
theorem terminal_lifecycle_ops_fail_witness :
    add_payment c4State c4PaymentIn 40 41 =
      .error (.invalidState ("Cannot add payment to loan with status: " ++ c4State.loan.status.toValue)) ∧
    extend_loan c4State c4Extension 40 41 =
      .error (.invalidState ("Cannot extend loan with status: " ++ c4State.loan.status.toValue)) ∧
    redeem_loan c4State c4Redemption 40 41 =
      .error (.invalidState ("Cannot redeem loan with status: " ++ c4State.loan.status.toValue)) ∧
    default_loan c4State c4Default 41 =
      .error (.invalidState ("Cannot default loan with status: " ++ c4State.loan.status.toValue)) :=
  terminal_lifecycle_ops_fail c4State c4PaymentIn c4Extension c4Redemption c4Default 40 41
    (Or.inl rfl)

/-- Concrete scenario for C5's counterexample: a cancelled loan and a
generic update that rewrites the principal. -/
def c5Loan : Loan :=
  { id := 4, customer_id := 2, item_id := 4, loan_amount := 1000, interest_rate := 5
    term_days := 30, start_date := 0, due_date := 30, status := .cancelled
    extension_count := 0, collateral_description := none, notes := none, updated_at := 0 }

def c5Item : Item :=
  { id := 4, item_code := "IT-0004", name := "laptop", status := .pawned, appraised_value := 1200 }

def c5State : LoanState := { loan := c5Loan, payments := [], item := c5Item }

def c5Update : LoanUpdate :=
  { loan_amount := some 1234, interest_rate := none, term_days := none, start_date := none
    due_date := none, status := none, collateral_description := none, notes := none }

/-- C5 counterexample: the generic `update_loan` accepts a cancelled loan
and mutates it (the principal changes from 1000 to 1234), so cancelled is
not terminal for every mutating operation. -/
theorem update_loan_cancelled_counterexample :
    c5State.loan.status = .cancelled ∧
    (update_loan c5State c5Update 50).map (fun s => s.loan.loan_amount) = Except.ok 1234 ∧
    c5State.loan.loan_amount ≠ 1234 := by
  refine ⟨rfl, rfl, ?_⟩
  norm_num [c5State, c5Loan]

/-- C5 (amended): completed and defaulted loans are terminal for every
modelled mutating operation, the generic `update_loan` included; a
cancelled loan still rejects the four lifecycle operations, but the
generic `update_loan` accepts it. -/
theorem terminal_loan_states_spec (st : LoanState) (loan_in : LoanUpdate)
    (payment_in : PaymentCreate) (extension_in : LoanExtend) (redemption_in : LoanRedeem)
    (default_in : LoanDefault) (today now : Int) :
    (st.loan.status = .completed ∨ st.loan.status = .defaulted →
      update_loan st loan_in now =
        .error (.invalidState ("Cannot update loan with status: " ++ st.loan.status.toValue)) ∧
      (add_payment st payment_in today now).isOk = false ∧
      (extend_loan st extension_in today now).isOk = false ∧
      (redeem_loan st redemption_in today now).isOk = false ∧
      (default_loan st default_in now).isOk = false) ∧
    (st.loan.status = .cancelled →
      (add_payment st payment_in today now).isOk = false ∧
      (extend_loan st extension_in today now).isOk = false ∧
      (redeem_loan st redemption_in today now).isOk = false ∧
      (default_loan st default_in now).isOk = false ∧
      ∃ st', update_loan st loan_in now = .ok st') := by
  constructor
  · intro h
    refine ⟨by rw [update_loan, if_pos h], ?_, ?_, ?_, ?_⟩ <;>
      obtain h | h := h <;>
        simp [add_payment, extend_loan, redeem_loan, default_loan, h, Except.isOk, Except.toBool]
  · intro h
    refine ⟨?_, ?_, ?_, ?_, ?_⟩
    · simp [add_payment, h, Except.isOk, Except.toBool]
    · simp [extend_loan, h, Except.isOk, Except.toBool]
    · simp [redeem_loan, h, Except.isOk, Except.toBool]
    · simp [default_loan, h, Except.isOk, Except.toBool]
    · exact ⟨_, by rw [update_loan, if_neg (by simp [h])]⟩

/-- Witness for C5 (amended): on the concrete completed loan every
operation, `update_loan` included, fails. -/
theorem terminal_loan_states_spec_witness :
    update_loan c4State c5Update 50 =
      .error (.invalidState ("Cannot update loan with status: " ++ c4State.loan.status.toValue)) ∧
    (add_payment c4State c4PaymentIn 40 41).isOk = false ∧
    (extend_loan c4State c4Extension 40 41).isOk = false ∧
    (redeem_loan c4State c4Redemption 40 41).isOk = false ∧
    (default_loan c4State c4Default 41).isOk = false :=
  (terminal_loan_states_spec c4State c5Update c4PaymentIn c4Extension c4Redemption
    c4Default 40 41).1 (Or.inl rfl)

/-- C6: on a loan in {active, overdue, extended}, `redeem_loan` with a
payment below the remaining balance computed at call time fails with a
validation error before any write, while a payment covering the balance
appends the payment row, completes the loan and redeems the item. -/
theorem redeem_loan_spec (st : LoanState) (redemption_in : LoanRedeem) (today now : Int)
    (h : st.loan.status = .active ∨ st.loan.status = .overdue ∨
        st.loan.status = .extended) :
    (redemption_in.payment.amount <
        (calculate_loan_details st.loan st.payments today).remaining_balance →
      redeem_loan st redemption_in today now =
        .error (.validationError ("Redemption payment (" ++ toString redemption_in.payment.amount ++
          ") is less than the remaining balance (" ++
          toString (calculate_loan_details st.loan st.payments today).remaining_balance ++ ")"))) ∧
    (redemption_in.payment.amount ≥
        (calculate_loan_details st.loan st.payments today).remaining_balance →
      redeem_loan st redemption_in today now =
        .ok { loan := { st.loan with
                        status := .completed
                        notes := match redemption_in.notes with
                          | some n => some ((st.loan.notes.getD "") ++ "\nRedeemed on " ++
                              toString today ++ ": " ++ n)
                          | none => st.loan.notes
                        updated_at := now }
              payments := st.payments ++ [Payment.fromCreate st.loan.id redemption_in.payment now]
              item := { st.item with status := .redeemed } }) := by
  constructor
  · intro hlt
    rw [redeem_loan, if_pos h, if_pos hlt]
  · intro hge
    rw [redeem_loan, if_pos h, if_neg (not_lt.mpr hge)]

/-- Concrete scenario for C6: an active loan worth 1000 at 5 percent with
no payments yet (remaining balance 1050) and a 100 redemption offer. -/
def c6Loan : Loan :=
  { id := 5, customer_id := 3, item_id := 5, loan_amount := 1000, interest_rate := 5
    term_days := 30, start_date := 0, due_date := 30, status := .active
    extension_count := 0, collateral_description := none, notes := none, updated_at := 0 }

def c6Item : Item :=
  { id := 5, item_code := "IT-0005", name := "necklace", status := .pawned, appraised_value := 1500 }

def c6State : LoanState := { loan := c6Loan, payments := [], item := c6Item }

def c6Redemption : LoanRedeem :=
  { payment := { amount := 100, payment_date := 10, payment_method := "cash"
                 reference_number := none, notes := none }
    notes := none }

/-- Witness for C6: the 100 offer is below the 1050 balance, so redemption
is rejected with a validation error. -/
theorem redeem_loan_spec_witness :
    redeem_loan c6State c6Redemption 10 11 =
      .error (.validationError ("Redemption payment (" ++ toString c6Redemption.payment.amount ++
        ") is less than the remaining balance (" ++
        toString (calculate_loan_details c6State.loan c6State.payments 10).remaining_balance ++ ")")) :=
  (redeem_loan_spec c6State c6Redemption 10 11 (Or.inl rfl)).1
    (by norm_num [calculate_loan_details, c6State, c6Loan, c6Redemption])

/-- The `.value` strings of the `Permission` enum in
`app/auth/permissions.py`, in declaration order; `admin`'s entry in the
role table is literally this full enumeration. -/
def allPermissions : List String :=
  ["view_users", "manage_users",
   "view_customers", "manage_customers",
   "view_loans", "create_loans", "approve_loans", "manage_loans",
   "view_inventory", "manage_inventory",
   "view_transactions", "manage_transactions",
   "view_reports", "manage_reports",
   "view_branches", "manage_branches"]

/-- The `manager` entry of `ROLE_PERMISSIONS`. -/
def managerPermissions : List String :=
  ["view_users", "view_customers", "manage_customers",
   "view_loans", "create_loans", "approve_loans",
   "view_inventory", "manage_inventory",
   "view_transactions", "manage_transactions",
   "view_reports", "view_branches"]

/-- The `staff` entry of `ROLE_PERMISSIONS`. -/
def staffPermissions : List String :=
  ["view_customers", "view_loans", "create_loans",
   "view_inventory", "view_transactions", "manage_transactions"]

/-- `ROLE_PERMISSIONS` from `app/auth/permissions.py` (lines 38–62), as
an association list in insertion order. -/
def ROLE_PERMISSIONS : List (String × List String) :=
  [("admin", allPermissions), ("manager", managerPermissions), ("staff", staffPermissions)]

/-- Membership test of the role dictionary plus the subsequent indexing,
i.e. `role in ROLE_PERMISSIONS` / `ROLE_PERMISSIONS[role]`. -/
def lookupRolePermissions (role : String) : Option (List String) :=
  (ROLE_PERMISSIONS.find? fun kv => kv.1 == role).map Prod.snd

/-- The caller as the permission check sees it: `role_name` is
`user.role.name` when the user has a role row. -/
structure AuthUser where
  role_name : Option String
deriving DecidableEq, Repr

/-- Python's `str.lower()` as applied to role names (character-wise ASCII
lowercasing). -/
def pyLower (s : String) : String := ⟨s.data.map Char.toLower⟩

/-- The check performed by the `has_permission` decorator in
`app/auth/permissions.py` (lines 64–89): `401` when no user is attached,
`403 "Invalid role"` when the lowercased role name is falsy or not a key
of `ROLE_PERMISSIONS`, `403` naming the first required permission absent
from the role's list, and success otherwise. -/
def has_permission (required_permissions : List String) (user : Option AuthUser) :
    Except ApiError Unit :=
  match user with
  | none => .error (.authenticationError "Not authenticated")
  | some u =>
    match u.role_name with
    | none => .error (.authorizationError "Invalid role")
    | some name =>
      if pyLower name = "" then .error (.authorizationError "Invalid role")
      else
        match lookupRolePermissions (pyLower name) with
        | none => .error (.authorizationError "Invalid role")
        | some user_permissions =>
          match required_permissions.find? (fun p => !(user_permissions.contains p)) with
          | some p => .error (.authorizationError ("Missing required permission: " ++ p))
          | none => .ok ()

/-- The empty string is not a key of the role table. -/
theorem lookupRolePermissions_empty : lookupRolePermissions "" = none := rfl

/-- C7 counterexample: a staff check requiring `[manage_users,
approve_loans]` fails naming `manage_users` — the first missing
permission — not `approve_loans`, although the check requires
`approve_loans`. -/
theorem has_permission_first_missing_counterexample :
    has_permission ["manage_users", "approve_loans"] (some ⟨some "staff"⟩) =
      .error (.authorizationError ("Missing required permission: " ++ "manage_users")) ∧
    "manage_users" ≠ "approve_loans" :=
  ⟨rfl, by decide⟩

/-- C7 (amended): the permission check fails with an authentication error
when no user is present, with an authorization error "Invalid role" when
the lowercased role name is not a key of the role table, and with an
authorization error naming the first required permission missing from the
role's list, succeeding when none is missing.  `staff` lacks
`approve_loans`, so every check requiring `approve_loans` fails for a
staff user with an authorization error naming the first missing
permission (`approve_loans` itself whenever it is the first one missing,
in particular when it is the sole requirement), while `admin`'s list is
the full permission enumeration. -/
theorem has_permission_spec (required : List String) (u : AuthUser) (r : String)
    (perms : List String) :
    has_permission required none = .error (.authenticationError "Not authenticated") ∧
    (u.role_name = some r → lookupRolePermissions (pyLower r) = none →
      has_permission required (some u) = .error (.authorizationError "Invalid role")) ∧
    (u.role_name = some r → lookupRolePermissions (pyLower r) = some perms →
      ∀ p, required.find? (fun q => !(perms.contains q)) = some p →
        has_permission required (some u) =
          .error (.authorizationError ("Missing required permission: " ++ p))) ∧
    (u.role_name = some r → lookupRolePermissions (pyLower r) = some perms →
      required.find? (fun q => !(perms.contains q)) = none →
      has_permission required (some u) = .ok ()) ∧
    "approve_loans" ∉ staffPermissions ∧
    ("approve_loans" ∈ required →
      ∃ p, has_permission required (some ⟨some "staff"⟩) =
        .error (.authorizationError ("Missing required permission: " ++ p))) ∧
    lookupRolePermissions "admin" = some allPermissions := by
  have hne : ∀ ps : List String, lookupRolePermissions (pyLower r) = some ps →
      ¬ pyLower r = "" := by
    intro ps hl he
    rw [he, lookupRolePermissions_empty] at hl
    exact Option.noConfusion hl
  refine ⟨rfl, ?_, ?_, ?_, by decide, ?_, rfl⟩
  · intro hr hl
    simp only [has_permission, hr]
    by_cases he : pyLower r = ""
    · rw [if_pos he]
    · rw [if_neg he]
      simp only [hl]
  · intro hr hl p hf
    simp only [has_permission, hr]
    rw [if_neg (hne perms hl)]
    simp only [hl, hf]
  · intro hr hl hf
    simp only [has_permission, hr]
    rw [if_neg (hne perms hl)]
    simp only [hl, hf]
  · intro hmem
    rcases hf : required.find? fun q => !(staffPermissions.contains q) with _ | p
    · rw [List.find?_eq_none] at hf
      exact absurd (by decide : !(staffPermissions.contains "approve_loans") = true)
        (hf "approve_loans" hmem)
    · refine ⟨p, ?_⟩
      simp only [has_permission]
      rw [if_neg (by decide : ¬ pyLower "staff" = "")]
      have hl : lookupRolePermissions (pyLower "staff") = some staffPermissions := rfl
      simp only [hl, hf]

/-- Witness for C7 (amended): an admin with every permission passes a
check requiring `approve_loans`, and a staff user fails the same check
with the error naming `approve_loans`. -/
theorem has_permission_spec_witness :
    has_permission ["approve_loans"] (some ⟨some "Admin"⟩) = .ok () ∧
    has_permission ["approve_loans"] (some ⟨some "staff"⟩) =
      .error (.authorizationError ("Missing required permission: " ++ "approve_loans")) :=
  ⟨((has_permission_spec ["approve_loans"] ⟨some "Admin"⟩ "Admin" allPermissions).2.2.2.1)
      rfl (by decide) rfl,
   ((has_permission_spec ["approve_loans"] ⟨some "staff"⟩ "staff" staffPermissions).2.2.1)
      rfl (by decide) "approve_loans" rfl⟩

/-- A row of the `applications` table, restricted to the columns
`update_application` reads or writes. -/
structure Application where
  id : Nat
  application_number : String
  status : ApplicationStatus
  estimated_value : ℚ
  loan_amount : ℚ
  notes : Option String
  rejection_reason : Option String
  processed_by_id : Option Nat
  processed_at : Option Int
deriving DecidableEq, Repr

/-- `ApplicationUpdate` from `app/schemas/operations.py` (lines 26–35);
`none` means the field was not sent (`exclude_unset=True`). -/
structure ApplicationUpdate where
  status : Option ApplicationStatus
  notes : Option String
  rejection_reason : Option String
deriving DecidableEq, Repr

/-- The pydantic validator on `ApplicationUpdate.rejection_reason`: it
runs only when `rejection_reason` is supplied, and rejects a falsy value
(the empty string) when the supplied status is `rejected`. -/
def applicationUpdateSchemaOk (u : ApplicationUpdate) : Bool :=
  match u.rejection_reason with
  | some v => !(u.status == some .rejected && v == "")
  | none => true

/-- Copy the supplied fields of the update body onto the row (the
`setattr` loop). -/
def applyApplicationUpdate (app : Application) (u : ApplicationUpdate) : Application :=
  { app with
    status := u.status.getD app.status
    notes := match u.notes with
      | some n => some n
      | none => app.notes
    rejection_reason := match u.rejection_reason with
      | some v => some v
      | none => app.rejection_reason }

/-- `update_application` from `app/routers/applications.py` (lines
279–308), composed with the request-schema validator.  Only when the
supplied status differs from the stored one does the handler stamp
`processed_by`/`processed_at` and demand a truthy `rejection_reason` for
a transition to `rejected` (`update_data.get("rejection_reason")` is
falsy when the field is absent or empty). -/
def update_application (app : Application) (application_update : ApplicationUpdate)
    (current_user_id : Nat) (now : Int) : Except ApiError Application :=
  if ¬ applicationUpdateSchemaOk application_update then
    .error (.validationError "Rejection reason is required when rejecting an application")
  else
    match application_update.status with
    | some s =>
      if s ≠ app.status then
        if s = .rejected ∧ (application_update.rejection_reason.getD "") = "" then
          .error (.validationError "Rejection reason is required when rejecting an application")
        else
          .ok { applyApplicationUpdate app application_update with
                processed_by_id := some current_user_id
                processed_at := some now }
      else .ok (applyApplicationUpdate app application_update)
    | none => .ok (applyApplicationUpdate app application_update)

/-- Concrete scenario for C8's counterexample: an application that is
already rejected, updated to `rejected` again with no reason supplied. -/
def c8App : Application :=
  { id := 9, application_number := "APP-0009", status := .rejected
    estimated_value := 1000, loan_amount := 800, notes := none
    rejection_reason := some "item damaged", processed_by_id := some 3, processed_at := some 50 }

def c8Update : ApplicationUpdate :=
  { status := some .rejected, notes := none, rejection_reason := none }

/-- C8 counterexample: updating an already-rejected application to
`rejected` without a rejection reason does not fail — the handler runs
its rejection check only when the status actually changes, so the
operation succeeds (returning the row unchanged, without stamping
`processed_by`/`processed_at`). -/
theorem update_application_rejected_counterexample :
    c8Update.status = some .rejected ∧
    c8Update.rejection_reason = none ∧
    update_application c8App c8Update 7 99 = Except.ok c8App :=
  ⟨rfl, rfl, rfl⟩

/-- C8 (amended): for an application whose stored status differs from
`rejected`, an update to `rejected` without a non-empty
`rejection_reason` fails with a validation error before any write, and an
update to `rejected` with a non-empty reason succeeds, stamping
`processed_by` and `processed_at`. -/
theorem update_application_reject_spec (app : Application) (u : ApplicationUpdate)
    (uid : Nat) (now : Int) (h : app.status ≠ .rejected) (hs : u.status = some .rejected) :
    ((u.rejection_reason.getD "") = "" →
      update_application app u uid now =
        .error (.validationError "Rejection reason is required when rejecting an application")) ∧
    (∀ v, u.rejection_reason = some v → v ≠ "" →
      ∃ app', update_application app u uid now = .ok app' ∧
        app'.status = .rejected ∧
        app'.rejection_reason = some v ∧
        app'.processed_by_id = some uid ∧
        app'.processed_at = some now) := by
  have hne : (ApplicationStatus.rejected : ApplicationStatus) ≠ app.status :=
    fun he => h he.symm
  constructor
  · intro hv
    rcases hr : u.rejection_reason with _ | v
    · have hok : applicationUpdateSchemaOk u = true := by
        simp [applicationUpdateSchemaOk, hr]
      rw [update_application, if_neg (by simp [hok])]
      simp only [hs]
      rw [if_pos hne, if_pos (show True ∧ (u.rejection_reason.getD "") = "" from ⟨trivial, hv⟩)]
    · have hv' : v = "" := by
        rw [hr] at hv
        simpa using hv
      subst hv'
      have hbad : applicationUpdateSchemaOk u = false := by
        simp [applicationUpdateSchemaOk, hr, hs]
      rw [update_application, if_pos (by simp [hbad])]
  · intro v hr hv
    have hok : applicationUpdateSchemaOk u = true := by
      simp [applicationUpdateSchemaOk, hr, hv]
    refine ⟨{ applyApplicationUpdate app u with
              processed_by_id := some uid, processed_at := some now }, ?_, ?_, ?_, rfl, rfl⟩
    · rw [update_application, if_neg (by simp [hok])]
      simp only [hs]
      rw [if_pos hne, if_neg (fun hc => hv (by simpa [hr] using hc.2))]
    · simp [applyApplicationUpdate, hs]
    · simp [applyApplicationUpdate, hr]

/-- Concrete scenario for C8's witness: a pending application rejected
with a non-empty reason. -/
def c8PendingApp : Application :=
  { id := 10, application_number := "APP-0010", status := .pending
    estimated_value := 1000, loan_amount := 800, notes := none
    rejection_reason := none, processed_by_id := none, processed_at := none }

def c8RejectUpdate : ApplicationUpdate :=
  { status := some .rejected, notes := none, rejection_reason := some "value too low" }

/-- Witness for C8 (amended): rejecting the pending application with a
non-empty reason succeeds and stamps the processing fields. -/
theorem update_application_reject_spec_witness :
    ∃ app', update_application c8PendingApp c8RejectUpdate 7 99 = .ok app' ∧
      app'.status = .rejected ∧
      app'.rejection_reason = some "value too low" ∧
      app'.processed_by_id = some 7 ∧
      app'.processed_at = some 99 :=
  (update_application_reject_spec c8PendingApp c8RejectUpdate 7 99 (by decide) rfl).2
    "value too low" rfl (by decide)

/-- A row of the `customers` table, restricted to the columns
`delete_customer` reads or writes. -/
structure Customer where
  id : Nat
  customer_code : String
  first_name : String
  last_name : String
  email : String
  phone : String
  is_active : Bool
  notes : Option String
  updated_at : Int
deriving DecidableEq, Repr

/-- Apply `f` to the first element satisfying `p`, leaving the rest of
the list untouched: the effect of mutating the single ORM object fetched
by `query(...).filter(id == x).first()` and committing. -/
def updateFirst (p : α → Bool) (f : α → α) : List α → List α
  | [] => []
  | x :: xs => if p x then f x :: xs else x :: updateFirst p f xs

theorem length_updateFirst (p : α → Bool) (f : α → α) (l : List α) :
    (updateFirst p f l).length = l.length := by
  induction l with
  | nil => rfl
  | cons x xs ih =>
    rw [updateFirst]
    split <;> simp [ih]

theorem mem_updateFirst_of_find? (p : α → Bool) (f : α → α) (l : List α) (c : α)
    (h : l.find? p = some c) : f c ∈ updateFirst p f l := by
  induction l with
  | nil => exact absurd h (by simp)
  | cons x xs ih =>
    rcases hp : p x with _ | _
    · rw [List.find?_cons_of_neg _ (by simp [hp])] at h
      rw [updateFirst, if_neg (by simp [hp])]
      exact List.mem_cons_of_mem x (ih h)
    · rw [List.find?_cons_of_pos _ hp] at h
      cases h
      rw [updateFirst, if_pos hp]
      exact List.mem_cons_self _ _

theorem mem_of_mem_updateFirst (p : α → Bool) (f : α → α) (l : List α) (x : α)
    (h : x ∈ updateFirst p f l) : x ∈ l ∨ ∃ c, l.find? p = some c ∧ x = f c := by
  induction l with
  | nil => exact absurd h (by simp [updateFirst])
  | cons y ys ih =>
    rcases hp : p y with _ | _
    · rw [updateFirst, if_neg (by simp [hp])] at h
      rcases List.mem_cons.mp h with h | h
      · exact Or.inl (h ▸ List.mem_cons_self _ _)
      · rcases ih h with h' | ⟨c, hc, hx⟩
        · exact Or.inl (List.mem_cons_of_mem y h')
        · exact Or.inr ⟨c, by rw [List.find?_cons_of_neg _ (by simp [hp])]; exact hc, hx⟩
    · rw [updateFirst, if_pos hp] at h
      rcases List.mem_cons.mp h with h | h
      · exact Or.inr ⟨y, List.find?_cons_of_pos _ hp, h⟩
      · exact Or.inl (List.mem_cons_of_mem y h)

/-- `delete_customer` from `app/routers/customers.py` (lines 187–226):
404 when the id is unknown; a conflict error when the customer has any
loan with status `active` or `overdue`; otherwise a soft delete that sets
`is_active = False` and refreshes `updated_at` on the fetched row,
leaving the row in the table. -/
def delete_customer (customers : List Customer) (loans : List Loan) (customer_id : Nat)
    (now : Int) : Except ApiError (List Customer) :=
  match customers.find? (fun c => c.id == customer_id) with
  | none => .error (.notFound "Customer not found")
  | some _ =>
    let active_loans := (loans.filter fun l =>
      l.customer_id == customer_id &&
        (l.status == LoanStatus.active || l.status == LoanStatus.overdue)).length
    if active_loans > 0 then
      .error (.conflictError ("Cannot delete customer with " ++ toString active_loans ++
        " active loans"))
    else
      .ok (updateFirst (fun c => c.id == customer_id)
        (fun c => { c with is_active := false, updated_at := now }) customers)

/-- Concrete scenario for C9's counterexample: a customer with no loans,
whose stored `updated_at` is 0, deleted at time 5. -/
def c9Customer : Customer :=
  { id := 1, customer_code := "C-0001", first_name := "Sok", last_name := "Dara"
    email := "dara@example.com", phone := "012345678", is_active := true
    notes := none, updated_at := 0 }

/-- C9 counterexample: the soft delete succeeds but also rewrites
`updated_at` (from 0 to the deletion time 5), so it is not true that all
fields other than `is_active` are unchanged. -/
theorem delete_customer_updated_at_counterexample :
    delete_customer [c9Customer] [] 1 5 =
      Except.ok [{ c9Customer with is_active := false, updated_at := 5 }] ∧
    c9Customer.updated_at ≠ 5 :=
  ⟨rfl, by decide⟩

/-- C9 (amended): deleting an existing customer fails with a conflict
error when the customer has a loan in status `active` or `overdue`;
otherwise it soft-deletes: the stored list keeps its length, the
customer's row — with `is_active` set to false and `updated_at` refreshed
to the deletion time, every other field untouched — is still present, and
no other row is altered.  The record is never removed from storage. -/
theorem delete_customer_spec (customers : List Customer) (loans : List Loan)
    (customer_id : Nat) (now : Int) (c : Customer)
    (hfind : customers.find? (fun x => x.id == customer_id) = some c) :
    ((∃ l ∈ loans, l.customer_id = customer_id ∧
        (l.status = .active ∨ l.status = .overdue)) →
      ∃ msg, delete_customer customers loans customer_id now =
        .error (.conflictError msg)) ∧
    ((∀ l ∈ loans, l.customer_id = customer_id →
        l.status ≠ .active ∧ l.status ≠ .overdue) →
      ∃ cs', delete_customer customers loans customer_id now = .ok cs' ∧
        cs'.length = customers.length ∧
        { c with is_active := false, updated_at := now } ∈ cs' ∧
        ∀ x ∈ cs', x ∈ customers ∨
          x = { c with is_active := false, updated_at := now }) := by
  constructor
  · rintro ⟨l, hl, hcid, hst⟩
    have hpos : 0 < (loans.filter fun l =>
        l.customer_id == customer_id &&
          (l.status == LoanStatus.active || l.status == LoanStatus.overdue)).length := by
      refine List.length_pos_iff_exists_mem.mpr ⟨l, List.mem_filter.mpr ⟨hl, ?_⟩⟩
      rcases hst with hst | hst <;> simp [hcid, hst]
    refine ⟨"Cannot delete customer with " ++
      toString (loans.filter fun l =>
        l.customer_id == customer_id &&
          (l.status == LoanStatus.active || l.status == LoanStatus.overdue)).length ++
      " active loans", ?_⟩
    rw [delete_customer, hfind]
    rw [if_pos hpos]
  · intro hno
    have hzero : (loans.filter fun l =>
        l.customer_id == customer_id &&
          (l.status == LoanStatus.active || l.status == LoanStatus.overdue)).length = 0 := by
      rw [List.length_eq_zero, List.filter_eq_nil_iff]
      intro l hl
      rcases Decidable.em (l.customer_id = customer_id) with hcid | hcid
      · have := hno l hl hcid
        simp [hcid, this.1, this.2]
      · simp [hcid]
    refine ⟨updateFirst (fun c => c.id == customer_id)
      (fun c => { c with is_active := false, updated_at := now }) customers, ?_, ?_, ?_, ?_⟩
    · rw [delete_customer, hfind]
      rw [if_neg (by rw [hzero]; exact lt_irrefl 0)]
    · exact length_updateFirst _ _ _
    · exact mem_updateFirst_of_find? _ _ _ c hfind
    · intro x hx
      rcases mem_of_mem_updateFirst _ _ _ x hx with h | ⟨c', hc', hxc⟩
      · exact Or.inl h
      · rw [hfind] at hc'
        cases hc'
        exact Or.inr hxc

/-- Witness for C9 (amended): the customer's only loan is completed, so
the deletion soft-deletes the row in place. -/
theorem delete_customer_spec_witness :
    ∃ cs', delete_customer [c9Customer] [c4Loan] 1 5 = .ok cs' ∧
      cs'.length = [c9Customer].length ∧
      { c9Customer with is_active := false, updated_at := 5 } ∈ cs' ∧
      ∀ x ∈ cs', x ∈ [c9Customer] ∨
        x = { c9Customer with is_active := false, updated_at := 5 } :=
  (delete_customer_spec [c9Customer] [c4Loan] 1 5 c9Customer rfl).2
    (by intro l hl hcid; constructor <;> (intro hst; revert hcid; simp_all [c4Loan]))

/-- `delete_item` from `app/routers/inventory.py` (lines 203–237): 404
when the id is unknown; a conflict error when some loan referencing the
item has status `active` or `overdue`; otherwise the fetched row is
removed from the table outright (`db.delete(item)` — a hard delete, in
contrast to the customer soft delete). -/
def delete_item (items : List Item) (loans : List Loan) (item_id : Nat) :
    Except ApiError (List Item) :=
  match items.find? (fun i => i.id == item_id) with
  | none => .error (.notFound "Item not found")
  | some _ =>
    match loans.find? (fun l =>
        l.item_id == item_id &&
          (l.status == LoanStatus.active || l.status == LoanStatus.overdue)) with
    | some _ => .error (.conflictError "Cannot delete item that is associated with an active loan")
    | none => .ok (items.eraseP fun i => i.id == item_id)

/-- C10: deleting an existing item is blocked — with a conflict error —
exactly by a referencing loan in status `active` or `overdue`; when no
such loan exists (referencing loans in status `extended`, `completed`,
`defaulted` or `cancelled` included), the deletion succeeds and removes
the record from storage: the list shrinks by one and keeps only rows it
already had. -/
theorem delete_item_spec (items : List Item) (loans : List Loan) (item_id : Nat)
    (it : Item) (hfind : items.find? (fun x => x.id == item_id) = some it) :
    ((∃ l ∈ loans, l.item_id = item_id ∧ (l.status = .active ∨ l.status = .overdue)) →
      delete_item items loans item_id =
        .error (.conflictError "Cannot delete item that is associated with an active loan")) ∧
    ((∀ l ∈ loans, l.item_id = item_id → l.status ≠ .active ∧ l.status ≠ .overdue) →
      ∃ items', delete_item items loans item_id = .ok items' ∧
        items'.length + 1 = items.length ∧
        ∀ x ∈ items', x ∈ items) := by
  constructor
  · rintro ⟨l, hl, hiid, hst⟩
    rcases hf : loans.find? (fun l =>
        l.item_id == item_id &&
          (l.status == LoanStatus.active || l.status == LoanStatus.overdue)) with _ | l'
    · rw [List.find?_eq_none] at hf
      refine absurd ?_ (hf l hl)
      rcases hst with hst | hst <;> simp [hiid, hst]
    · rw [delete_item, hfind, hf]
  · intro hno
    have hf : loans.find? (fun l =>
        l.item_id == item_id &&
          (l.status == LoanStatus.active || l.status == LoanStatus.overdue)) = none := by
      rw [List.find?_eq_none]
      intro l hl
      rcases Decidable.em (l.item_id = item_id) with hiid | hiid
      · have := hno l hl hiid
        simp [hiid, this.1, this.2]
      · simp [hiid]
    refine ⟨items.eraseP fun i => i.id == item_id, ?_, ?_, ?_⟩
    · rw [delete_item, hfind, hf]
    · have hmem := List.mem_of_find?_eq_some hfind
      have hpa := List.find?_some hfind
      exact List.length_eraseP_add_one hmem hpa
    · intro x hx
      exact List.mem_of_mem_eraseP hx

/-- Concrete scenario for C10: an item referenced only by an `extended`
loan. -/
def c10Item : Item :=
  { id := 6, item_code := "IT-0006", name := "camera", status := .pawned, appraised_value := 400 }

def c10Loan : Loan :=
  { id := 7, customer_id := 4, item_id := 6, loan_amount := 300, interest_rate := 5
    term_days := 30, start_date := 0, due_date := 30, status := .extended
    extension_count := 0, collateral_description := none, notes := none, updated_at := 0 }

/-- Witness for C10: the referencing loan is `extended`, not
`active`/`overdue`, so the item is hard-deleted and the table becomes
empty. -/
theorem delete_item_spec_witness :
    ∃ items', delete_item [c10Item] [c10Loan] 6 = .ok items' ∧
      items'.length + 1 = [c10Item].length ∧
      ∀ x ∈ items', x ∈ [c10Item] :=
  (delete_item_spec [c10Item] [c10Loan] 6 c10Item rfl).2
    (by intro l hl hiid; constructor <;> (intro hst; revert hiid; simp_all [c10Loan]))

end Pawnshop
